import Mathlib

/-!
Shallow embedding of the Dexcom→AWTRIX bridge core (src/app/dexcom_client.py,
src/app/awtrix_formatter.py, src/app/models.py, src/app/config.py), with the
statistics counters and the configurable display settings modelled from the
spec where the repository's src tree only contains their callers.

Time is modelled as rational seconds; the wall clock value `now` is passed
explicitly to each operation, standing for `datetime.now()`.  The upstream
Dexcom API is modelled by a `FetchResult` argument describing what the two
source calls (`get_glucose_readings`, `get_latest_glucose_reading`) return
during the fetch attempt, or the exception the attempt raises.
-/

namespace DexcomAwtrix

/-- `GlucoseData` (src/app/models.py).  The float field `mmol_l` is carried as
a rational: the client only copies it from the upstream record, never
computes with it. -/
structure GlucoseData where
  value : Int
  mmol_l : Option ℚ
  trend : Option Int
  trend_direction : Option String
  trend_description : Option String
  trend_arrow : Option String
  timestamp : Option String
  delta : Option Int
  previous_value : Option Int
deriving DecidableEq, Repr

/-- One record returned by the upstream source (pydexcom `GlucoseReading`),
restricted to the attributes `DexcomClient.get_current_reading` reads.
`datetimeIso` stands for `reading.datetime.isoformat()` (or `None`). -/
structure RawReading where
  value : Int
  mmol_l : Option ℚ
  trend : Option Int
  trend_direction : Option String
  trend_description : Option String
  trend_arrow : Option String
  datetimeIso : Option String
deriving DecidableEq, Repr

/-- Mutable state of `DexcomClient` (src/app/dexcom_client.py, `__init__`).
The three counters `total_api_calls`, `cache_hits`, `api_errors` are
modelled from the spec: `main.py` calls `dexcom_client.get_statistics()`
but the counter fields and that method are absent from
src/app/dexcom_client.py (CacheState counters, spec §3/§4.1). -/
structure CacheState where
  last_api_call : Option ℚ
  cached_data : Option GlucoseData
  last_error : Option String
  last_error_time : Option ℚ
  total_api_calls : Nat
  cache_hits : Nat
  api_errors : Nat
deriving DecidableEq, Repr

/-- `MIN_API_INTERVAL_SECONDS = 300` (src/app/dexcom_client.py line 14). -/
def MIN_API_INTERVAL_SECONDS : ℚ := 300

/-- Python `int()` applied to a float/rational: truncation toward zero. -/
def pyInt (q : ℚ) : Int :=
  if 0 ≤ q then ⌊q⌋ else ⌈q⌉

/-- `_can_call_api_unlocked` (src/app/dexcom_client.py lines 79–85). -/
def canCallApi (s : CacheState) (now : ℚ) : Bool :=
  match s.last_api_call with
  | none => true
  | some t => decide (MIN_API_INTERVAL_SECONDS ≤ now - t)

/-- `_get_refresh_progress_unlocked` (src/app/dexcom_client.py lines 70–77):
`min(100, int((elapsed / MIN_API_INTERVAL_SECONDS) * 100))`, `100` if the
API was never called. -/
def refreshProgress (s : CacheState) (now : ℚ) : Int :=
  match s.last_api_call with
  | none => 100
  | some t => min 100 (pyInt ((now - t) / MIN_API_INTERVAL_SECONDS * 100))

/-- `_get_seconds_until_next_call_unlocked` (src/app/dexcom_client.py
lines 87–94): `int(max(0, 300 - elapsed))`, `0` if never called. -/
def secondsUntilNextCall (s : CacheState) (now : ℚ) : Int :=
  match s.last_api_call with
  | none => 0
  | some t => pyInt (max 0 (MIN_API_INTERVAL_SECONDS - (now - t)))

/-- What the upstream source does during one fetch attempt:
`ok recent latest` means `get_glucose_readings(minutes=30, max_count=2)`
returns the list `recent` (newest first) and, if that list is empty and the
fallback is consulted, `get_latest_glucose_reading()` returns `latest`;
`err msg` means the attempt raises an exception rendered as `msg`. -/
inductive FetchResult where
  | ok (recent : List RawReading) (latest : Option RawReading)
  | err (msg : String)
deriving DecidableEq, Repr

/-- Result of one `get_current_reading` call: a normal return of
`(Optional[GlucoseData], progress)` or a re-raised exception. -/
inductive Outcome where
  | ok (reading : Option GlucoseData) (progress : Int)
  | raise (msg : String)
deriving DecidableEq, Repr

/-- Construction of the `GlucoseData` value from the newest reading and the
optional older reading (src/app/dexcom_client.py lines 141–161). -/
def buildGlucoseData (current : RawReading) (previous : Option RawReading) :
    GlucoseData where
  value := current.value
  mmol_l := current.mmol_l
  trend := current.trend
  trend_direction := current.trend_direction
  trend_description := current.trend_description
  trend_arrow := current.trend_arrow
  timestamp := current.datetimeIso
  delta := previous.map (fun p => current.value - p.value)
  previous_value := previous.map (fun p => p.value)

/-- `DexcomClient.get_current_reading` (src/app/dexcom_client.py
lines 96–193) as a step function over `CacheState`.  The counter updates
(`cache_hits` on the rate-limited cached return, `total_api_calls` on a
successful fetch, `api_errors` on a raised fetch) are modelled from the
spec (§4.1), the rest follows the source line by line. -/
def get_current_reading (s : CacheState) (now : ℚ) (fetch : FetchResult) :
    Outcome × CacheState :=
  match s.cached_data, canCallApi s now with
  | some d, false =>
      (Outcome.ok (some d) (refreshProgress s now),
       { s with cache_hits := s.cache_hits + 1 })
  | _, _ =>
    match fetch with
    | FetchResult.err msg =>
        let s1 : CacheState :=
          { s with last_error := some msg, last_error_time := some now,
                   api_errors := s.api_errors + 1 }
        match s1.cached_data with
        | some d => (Outcome.ok (some d) (refreshProgress s1 now), s1)
        | none => (Outcome.raise msg, s1)
    | FetchResult.ok recent latest =>
        let readings : List RawReading :=
          if recent.isEmpty then
            match latest with
            | some l => [l]
            | none => []
          else recent
        match readings with
        | [] => (Outcome.ok none 0, { s with last_api_call := some now })
        | current :: rest =>
            let g := buildGlucoseData current rest.head?
            (Outcome.ok (some g) 0,
             { s with cached_data := some g, last_api_call := some now,
                      last_error := none, last_error_time := none,
                      total_api_calls := s.total_api_calls + 1 })

/-- Result shape of `get_statistics` (the endpoint in src/app/main.py
lines 342–357 returns it verbatim). -/
structure Statistics where
  total_api_calls : Nat
  cache_hits : Nat
  api_errors : Nat
  cache_hit_rate_percent : ℚ
deriving DecidableEq, Repr

/-- Modelled from the spec: `DexcomClient.get_statistics` is called from
src/app/main.py but absent from src/app/dexcom_client.py.  Spec §4.1:
`getStatistics() → {totalApiCalls, cacheHits, apiErrors,
cacheHitRatePercent}` where hit rate = `cacheHits / (totalApiCalls +
cacheHits)` guarded against division by zero (0 when the denominator
is 0), reported as a percentage. -/
def get_statistics (s : CacheState) : Statistics where
  total_api_calls := s.total_api_calls
  cache_hits := s.cache_hits
  api_errors := s.api_errors
  cache_hit_rate_percent :=
    if (s.total_api_calls : ℚ) + (s.cache_hits : ℚ) = 0 then 0
    else (s.cache_hits : ℚ) / ((s.total_api_calls : ℚ) + (s.cache_hits : ℚ)) * 100

/-- Application settings (src/app/config.py).  The glucose thresholds and
the AWTRIX duration/lifetime are the fields of the src `Settings` class.
The fields `delta_stable_threshold`, `delta_rapid_threshold` and the eight
`color_*` fields are modelled from the spec (§6: delta thresholds
`stableThreshold`, `rapidThreshold`; 8 configurable RGB colors): the
formatter in src/app/awtrix_formatter.py reads them from `Settings`, but
src/app/config.py only carries the legacy `delta_fast_threshold` and no
colors.  Colors are carried in parsed form, as the `List Int` that
`settings.parse_color` returns in the formatter. -/
structure Settings where
  glucose_critical_low : Int
  glucose_low : Int
  glucose_high : Int
  glucose_very_high : Int
  delta_stable_threshold : Int
  delta_rapid_threshold : Int
  color_critical_low : List Int
  color_low : List Int
  color_normal : List Int
  color_high : List Int
  color_very_high : List Int
  color_delta : List Int
  color_progress_bar : List Int
  color_progress_bg : List Int
  awtrix_duration : Int
  awtrix_lifetime : Int
deriving DecidableEq, Repr

/-- Modelled from the spec: `Settings.parse_color` is called in
src/app/awtrix_formatter.py but absent from src/app/config.py.  Since the
configured colors are carried here already in parsed `List Int` form
(spec §6: configurable RGB colors), parsing is the identity. -/
def Settings.parse_color (_s : Settings) (c : List Int) : List Int := c

/-- `get_color_for_glucose` (src/app/awtrix_formatter.py lines 7–26). -/
def get_color_for_glucose (value : Int) (s : Settings) : List Int :=
  if value < s.glucose_critical_low then s.parse_color s.color_critical_low
  else if value < s.glucose_low then s.parse_color s.color_low
  else if value ≤ s.glucose_high then s.parse_color s.color_normal
  else if value ≤ s.glucose_very_high then s.parse_color s.color_high
  else s.parse_color s.color_very_high

/-- `get_background_color` (src/app/awtrix_formatter.py lines 29–37). -/
def get_background_color (value : Int) (s : Settings) : Option (List Int) :=
  if value < s.glucose_critical_low then some [64, 0, 0]
  else if value > s.glucose_very_high then some [64, 32, 0]
  else none

/-- Lower-case hex digit. -/
def hexDigitChar (n : Nat) : Char :=
  if n < 10 then Char.ofNat (48 + n) else Char.ofNat (87 + n)

/-- Hex digits of `n`, most significant first, prepended to `acc`. -/
def natToHexAux (n : Nat) (acc : List Char) : List Char :=
  if h : n = 0 then acc
  else natToHexAux (n / 16) (hexDigitChar (n % 16) :: acc)
termination_by n
decreasing_by exact Nat.div_lt_self (Nat.pos_of_ne_zero h) (by norm_num)

/-- Lower-case hex rendering of a natural number, no leading zeros. -/
def natToHex (n : Nat) : String :=
  if n = 0 then "0" else String.mk (natToHexAux n [])

/-- Python `format(i, "02x")`: lower-case hex, zero-padded to overall width
2 (the sign of a negative number counts toward the width). -/
def pyHex02 (i : Int) : String :=
  if 0 ≤ i then
    let body := natToHex i.toNat
    if body.length < 2 then "0" ++ body else body
  else
    "-" ++ natToHex i.natAbs

/-- `rgb_to_hex` (src/app/awtrix_formatter.py lines 40–42).  Indexing
`rgb[0]`, `rgb[1]`, `rgb[2]` raises `IndexError` on a short list, hence
the `Option` result. -/
def rgb_to_hex (rgb : List Int) : Option String :=
  match rgb[0]?, rgb[1]?, rgb[2]? with
  | some r, some g, some b => some ("#" ++ pyHex02 r ++ pyHex02 g ++ pyHex02 b)
  | _, _, _ => none

/-- One AWTRIX draw instruction, as the dicts built in
src/app/awtrix_formatter.py: `dt` text, `dl` line, `dp` pixel. -/
inductive DrawCmd where
  | dt (x y : Int) (text : String) (color : String)
  | dl (x1 y1 x2 y2 : Int) (color : String)
  | dp (x y : Int) (color : String)
deriving DecidableEq, Repr

/-- Horizontal/stable arrow pixels (src/app/awtrix_formatter.py lines 60–65). -/
def stableArrow (hex : String) (x : Int) : List DrawCmd :=
  [DrawCmd.dl x 3 (x + 3) 3 hex,
   DrawCmd.dp (x + 4) 3 hex,
   DrawCmd.dp (x + 3) 2 hex,
   DrawCmd.dp (x + 3) 4 hex]

/-- Vertical up arrow pixels (src/app/awtrix_formatter.py lines 71–78). -/
def upArrow (hex : String) (x : Int) : List DrawCmd :=
  [DrawCmd.dl (x + 2) 2 (x + 2) 6 hex,
   DrawCmd.dp (x + 2) 1 hex,
   DrawCmd.dp (x + 1) 2 hex,
   DrawCmd.dp (x + 3) 2 hex,
   DrawCmd.dp x 3 hex,
   DrawCmd.dp (x + 4) 3 hex]

/-- Vertical down arrow pixels (src/app/awtrix_formatter.py lines 81–88). -/
def downArrow (hex : String) (x : Int) : List DrawCmd :=
  [DrawCmd.dl (x + 2) 0 (x + 2) 5 hex,
   DrawCmd.dp (x + 2) 6 hex,
   DrawCmd.dp (x + 1) 5 hex,
   DrawCmd.dp (x + 3) 5 hex,
   DrawCmd.dp x 4 hex,
   DrawCmd.dp (x + 4) 4 hex]

/-- Diagonal up-right arrow pixels (src/app/awtrix_formatter.py lines 94–103). -/
def diagUpArrow (hex : String) (x : Int) : List DrawCmd :=
  [DrawCmd.dp x 5 hex,
   DrawCmd.dp (x + 1) 4 hex,
   DrawCmd.dp (x + 2) 3 hex,
   DrawCmd.dp (x + 3) 2 hex,
   DrawCmd.dp (x + 4) 1 hex,
   DrawCmd.dp (x + 4) 0 hex,
   DrawCmd.dp (x + 3) 0 hex,
   DrawCmd.dp (x + 4) 2 hex]

/-- Diagonal down-right arrow pixels (src/app/awtrix_formatter.py lines 106–115). -/
def diagDownArrow (hex : String) (x : Int) : List DrawCmd :=
  [DrawCmd.dp x 1 hex,
   DrawCmd.dp (x + 1) 2 hex,
   DrawCmd.dp (x + 2) 3 hex,
   DrawCmd.dp (x + 3) 4 hex,
   DrawCmd.dp (x + 4) 5 hex,
   DrawCmd.dp (x + 4) 6 hex,
   DrawCmd.dp (x + 3) 6 hex,
   DrawCmd.dp (x + 4) 4 hex]

/-- `get_arrow_drawing` (src/app/awtrix_formatter.py lines 45–115):
selects the arrow shape from the delta and the stable/rapid thresholds,
returning the draw commands and the arrow width (always 5). -/
def get_arrow_drawing (delta : Option Int) (s : Settings) (hex_color : String)
    (x : Int) : List DrawCmd × Int :=
  match delta with
  | none => (stableArrow hex_color x, 5)
  | some d =>
      if |d| ≤ s.delta_stable_threshold then (stableArrow hex_color x, 5)
      else if |d| > s.delta_rapid_threshold then
        if d > 0 then (upArrow hex_color x, 5) else (downArrow hex_color x, 5)
      else
        if d > 0 then (diagUpArrow hex_color x, 5)
        else (diagDownArrow hex_color x, 5)

/-- Per-character width of `estimate_text_width`
(src/app/awtrix_formatter.py lines 118–131), including the trailing
1-pixel spacing added for every character. -/
def charWidthPlusGap (c : Char) : Nat :=
  (if c = '1' ∨ c = 'i' ∨ c = 'l' ∨ c = ':' then 2
   else if c = ' ' then 2
   else if c = '+' ∨ c = '-' then 4
   else 4) + 1

/-- `estimate_text_width` (src/app/awtrix_formatter.py lines 118–131). -/
def estimate_text_width (text : String) : Nat :=
  let w := text.data.foldl (fun acc c => acc + charWidthPlusGap c) 0
  if w > 0 then w - 1 else 0

/-- `format_delta` (src/app/awtrix_formatter.py lines 134–141). -/
def format_delta : Option Int → String
  | none => ""
  | some d => if d ≥ 0 then "+" ++ toString d else toString d

/-- `AwtrixResponse` (src/app/models.py lines 19–44), with the draw array
carried as typed `DrawCmd`s. -/
structure AwtrixResponse where
  text : String
  color : List Int
  icon : Option String
  duration : Option Int
  noScroll : Option Bool
  center : Option Bool
  lifetime : Option Int
  background : Option (List Int)
  blinkText : Option Int
  progress : Option Int
  progressC : Option (List Int)
  progressBC : Option (List Int)
  draw : Option (List DrawCmd)
deriving DecidableEq, Repr

/-- `format_for_awtrix` (src/app/awtrix_formatter.py lines 144–222).
The two `rgb_to_hex` conversions are the only partial operations, so the
result is `none` exactly when one of them hits a short color list. -/
def format_for_awtrix (glucose_data : GlucoseData) (s : Settings)
    (refresh_progress : Int) : Option AwtrixResponse :=
  let value := glucose_data.value
  let delta := glucose_data.delta
  let glucose_color := get_color_for_glucose value s
  let delta_color := s.parse_color s.color_delta
  let progress_color := s.parse_color s.color_progress_bar
  let progress_bg_color := s.parse_color s.color_progress_bg
  match rgb_to_hex glucose_color, rgb_to_hex delta_color with
  | some glucose_hex, some delta_hex =>
      let value_str := toString value
      let delta_str := format_delta delta
      let value_width : Int := estimate_text_width value_str
      let arrow_x := value_width + 1
      let arrow := get_arrow_drawing delta s glucose_hex arrow_x
      let delta_x := arrow_x + arrow.2 + 1
      let draw_commands :=
        DrawCmd.dt 0 0 value_str glucose_hex :: arrow.1 ++
          (if delta_str ≠ "" then [DrawCmd.dt delta_x 0 delta_str delta_hex]
           else [])
      some { text := ""
             color := glucose_color
             icon := none
             duration := some s.awtrix_duration
             noScroll := some true
             center := some false
             lifetime := some s.awtrix_lifetime
             background := get_background_color value s
             blinkText :=
               if value < s.glucose_critical_low then some 500 else none
             progress := some refresh_progress
             progressC := some progress_color
             progressBC := some progress_bg_color
             draw := some draw_commands }
  | _, _ => none

/-! ## Helper lemmas about the cache step function -/

theorem pyInt_of_nonneg (q : ℚ) (h : 0 ≤ q) : pyInt q = ⌊q⌋ :=
  if_pos h

theorem canCallApi_eq_false_of (s : CacheState) (t now : ℚ)
    (hlast : s.last_api_call = some t) (h : now - t < 300) :
    canCallApi s now = false := by
  unfold canCallApi
  rw [hlast]
  simp only [MIN_API_INTERVAL_SECONDS, decide_eq_false_iff_not, not_le]
  linarith

theorem canCallApi_eq_true_of (s : CacheState) (t now : ℚ)
    (hlast : s.last_api_call = some t) (h : 300 ≤ now - t) :
    canCallApi s now = true := by
  unfold canCallApi
  rw [hlast]
  simp only [MIN_API_INTERVAL_SECONDS, decide_eq_true_eq]
  linarith

theorem refreshProgress_congr (s s' : CacheState) (now : ℚ)
    (h : s'.last_api_call = s.last_api_call) :
    refreshProgress s' now = refreshProgress s now := by
  unfold refreshProgress
  rw [h]

theorem refreshProgress_formula (s : CacheState) (t now : ℚ)
    (hlast : s.last_api_call = some t) (h0 : 0 ≤ now - t) :
    refreshProgress s now = min 100 ⌊(now - t) * 100 / 300⌋ := by
  unfold refreshProgress
  rw [hlast]
  have h1 : (0 : ℚ) ≤ (now - t) / MIN_API_INTERVAL_SECONDS * 100 :=
    mul_nonneg (div_nonneg h0 (by norm_num [MIN_API_INTERVAL_SECONDS])) (by norm_num)
  show min 100 (pyInt ((now - t) / MIN_API_INTERVAL_SECONDS * 100)) = _
  rw [pyInt_of_nonneg _ h1]
  congr 2
  unfold MIN_API_INTERVAL_SECONDS
  ring

theorem step_cache_hit (s : CacheState) (now : ℚ) (fetch : FetchResult)
    (d : GlucoseData) (hcache : s.cached_data = some d)
    (hcall : canCallApi s now = false) :
    get_current_reading s now fetch =
      (Outcome.ok (some d) (refreshProgress s now),
       { s with cache_hits := s.cache_hits + 1 }) := by
  unfold get_current_reading
  rw [hcache, hcall]

theorem refreshProgress_update_err (s : CacheState) (msg : String)
    (now t' : ℚ) :
    refreshProgress
        { s with last_error := some msg, last_error_time := some t',
                 api_errors := s.api_errors + 1 } now
      = refreshProgress s now :=
  refreshProgress_congr s _ now rfl

theorem step_err_with_cache (s : CacheState) (now : ℚ) (msg : String)
    (d : GlucoseData) (hcache : s.cached_data = some d)
    (hcall : canCallApi s now = true) :
    get_current_reading s now (FetchResult.err msg) =
      (Outcome.ok (some d) (refreshProgress s now),
       { s with last_error := some msg, last_error_time := some now,
                api_errors := s.api_errors + 1 }) := by
  unfold get_current_reading
  rw [hcache, hcall]
  simp only [hcache]
  have h2 : refreshProgress
      { s with cached_data := some d, last_error := some msg,
               last_error_time := some now,
               api_errors := s.api_errors + 1 } now
        = refreshProgress s now := refreshProgress_congr s _ now rfl
  rw [h2]

theorem step_err_no_cache (s : CacheState) (now : ℚ) (msg : String)
    (hcache : s.cached_data = none) :
    get_current_reading s now (FetchResult.err msg) =
      (Outcome.raise msg,
       { s with last_error := some msg, last_error_time := some now,
                api_errors := s.api_errors + 1 }) := by
  unfold get_current_reading
  rw [hcache]

theorem step_empty (s : CacheState) (now : ℚ)
    (hpath : canCallApi s now = true ∨ s.cached_data = none) :
    get_current_reading s now (FetchResult.ok [] none) =
      (Outcome.ok none 0, { s with last_api_call := some now }) := by
  rcases hpath with h | h
  · unfold get_current_reading
    rw [h]
    cases hsc : s.cached_data <;> rfl
  · unfold get_current_reading
    rw [h]
    cases hcall : canCallApi s now <;> rfl

theorem step_success_recent (s : CacheState) (now : ℚ) (r₁ : RawReading)
    (rest : List RawReading) (latest : Option RawReading)
    (hpath : canCallApi s now = true ∨ s.cached_data = none) :
    get_current_reading s now (FetchResult.ok (r₁ :: rest) latest) =
      (Outcome.ok (some (buildGlucoseData r₁ rest.head?)) 0,
       { s with cached_data := some (buildGlucoseData r₁ rest.head?),
                last_api_call := some now, last_error := none,
                last_error_time := none,
                total_api_calls := s.total_api_calls + 1 }) := by
  rcases hpath with h | h
  · unfold get_current_reading
    rw [h]
    cases hsc : s.cached_data <;> rfl
  · unfold get_current_reading
    rw [h]
    cases hcall : canCallApi s now <;> rfl

theorem step_success_latest (s : CacheState) (now : ℚ) (l : RawReading)
    (hpath : canCallApi s now = true ∨ s.cached_data = none) :
    get_current_reading s now (FetchResult.ok [] (some l)) =
      (Outcome.ok (some (buildGlucoseData l none)) 0,
       { s with cached_data := some (buildGlucoseData l none),
                last_api_call := some now, last_error := none,
                last_error_time := none,
                total_api_calls := s.total_api_calls + 1 }) := by
  rcases hpath with h | h
  · unfold get_current_reading
    rw [h]
    cases hsc : s.cached_data <;> rfl
  · unfold get_current_reading
    rw [h]
    cases hcall : canCallApi s now <;> rfl

theorem canCallApi_congr (s s' : CacheState) (now : ℚ)
    (h : s'.last_api_call = s.last_api_call) :
    canCallApi s' now = canCallApi s now := by
  unfold canCallApi
  rw [h]

theorem canCallApi_mono (s : CacheState) (now now' : ℚ)
    (h : canCallApi s now = true) (hle : now ≤ now') :
    canCallApi s now' = true := by
  cases hl : s.last_api_call with
  | none => unfold canCallApi; rw [hl]
  | some t =>
      unfold canCallApi at h ⊢
      rw [hl] at h ⊢
      simp only [decide_eq_true_eq] at h ⊢
      linarith

/-! ## Sample values used by the concrete witnesses -/

/-- A sample cached reading. -/
def sampleReading : GlucoseData :=
  ⟨120, none, none, none, none, none, none, none, none⟩

/-- Upstream record with glucose value 149. -/
def raw149 : RawReading := ⟨149, none, none, none, none, none, none⟩

/-- Upstream record with glucose value 160. -/
def raw160 : RawReading := ⟨160, none, none, none, none, none, none⟩

/-- Upstream record with glucose value 120. -/
def raw120 : RawReading := ⟨120, none, none, none, none, none, none⟩

/-- Fresh cache state: API never called, nothing cached. -/
def stFresh : CacheState := ⟨none, none, none, none, 0, 0, 0⟩

/-- Cache state after one successful fetch at time 0. -/
def stCached : CacheState := ⟨some 0, some sampleReading, none, none, 1, 0, 0⟩

/-! ## Claim theorems -/

/-- C1: while the elapsed time since `last_api_call` is below the
300-second minimum interval and a cached reading exists,
`get_current_reading` performs no upstream fetch (the fetch argument is
arbitrary and does not influence the result), returns exactly the cached
reading with `progress = min 100 ⌊100 * elapsed / 300⌋`, and changes the
state only by bumping the cache-hit counter; a second such call returns
the identical reading again. -/
theorem c1_rate_limited_cache_hit (s : CacheState) (now₁ now₂ t : ℚ)
    (d : GlucoseData) (fetch₁ fetch₂ : FetchResult)
    (hlast : s.last_api_call = some t) (hcache : s.cached_data = some d)
    (h1 : 0 ≤ now₁ - t) (h2 : now₁ - t < 300)
    (h3 : 0 ≤ now₂ - t) (h4 : now₂ - t < 300) :
    get_current_reading s now₁ fetch₁ =
      (Outcome.ok (some d) (min 100 ⌊(now₁ - t) * 100 / 300⌋),
       { s with cache_hits := s.cache_hits + 1 }) ∧
    (get_current_reading
        ((get_current_reading s now₁ fetch₁).2) now₂ fetch₂).1 =
      Outcome.ok (some d) (min 100 ⌊(now₂ - t) * 100 / 300⌋) := by
  have hcall₁ := canCallApi_eq_false_of s t now₁ hlast h2
  have hstep₁ := step_cache_hit s now₁ fetch₁ d hcache hcall₁
  have hprog₁ := refreshProgress_formula s t now₁ hlast h1
  rw [hprog₁] at hstep₁
  refine ⟨hstep₁, ?_⟩
  have hlast₂ :
      ({ s with cache_hits := s.cache_hits + 1 } : CacheState).last_api_call
        = some t := hlast
  have hcache₂ :
      ({ s with cache_hits := s.cache_hits + 1 } : CacheState).cached_data
        = some d := hcache
  have hcall₂ := canCallApi_eq_false_of _ t now₂ hlast₂ h4
  have hstep₂ := step_cache_hit _ now₂ fetch₂ d hcache₂ hcall₂
  have hprog₂ := refreshProgress_formula _ t now₂ hlast₂ h3
  rw [hprog₂] at hstep₂
  rw [hstep₁]
  show (get_current_reading
      { s with cache_hits := s.cache_hits + 1 } now₂ fetch₂).1 = _
  rw [hstep₂]

/-- Witness for C1: a fetch at time 0, then rate-limited calls at 0.5 s
and 1 s, both of which return the cached reading unchanged. -/
theorem c1_rate_limited_cache_hit_witness :
    stCached.last_api_call = some 0 ∧
    stCached.cached_data = some sampleReading ∧
    (0 : ℚ) ≤ (1 / 2 : ℚ) - 0 ∧ ((1 / 2 : ℚ) - 0) < 300 ∧
    (0 : ℚ) ≤ (1 : ℚ) - 0 ∧ ((1 : ℚ) - 0) < 300 ∧
    (get_current_reading stCached (1 / 2) (FetchResult.err "boom") =
       (Outcome.ok (some sampleReading)
          (min 100 ⌊((1 / 2 : ℚ) - 0) * 100 / 300⌋),
        { stCached with cache_hits := stCached.cache_hits + 1 }) ∧
     (get_current_reading
        ((get_current_reading stCached (1 / 2) (FetchResult.err "boom")).2) 1
        (FetchResult.ok [] none)).1 =
       Outcome.ok (some sampleReading)
         (min 100 ⌊((1 : ℚ) - 0) * 100 / 300⌋)) :=
  ⟨rfl, rfl, by norm_num, by norm_num, by norm_num, by norm_num,
   c1_rate_limited_cache_hit stCached (1 / 2) 1 0 sampleReading
     (FetchResult.err "boom") (FetchResult.ok [] none) rfl rfl
     (by norm_num) (by norm_num) (by norm_num) (by norm_num)⟩

/-- C3 counterexample: with a cached reading present and the interval
fully elapsed, a fetch in which both upstream calls return zero readings
makes `get_current_reading` return `(none, 0)` — not the cached reading
with the current refresh progress, as the claim requires for every
"no fresh reading" call. -/
theorem c3_counterexample :
    stCached.cached_data = some sampleReading ∧
    canCallApi stCached 300 = true ∧
    (get_current_reading stCached 300 (FetchResult.ok [] none)).1 =
      Outcome.ok none 0 ∧
    (get_current_reading stCached 300 (FetchResult.ok [] none)).1 ≠
      Outcome.ok (some sampleReading) (refreshProgress stCached 300) := by
  have hcc : canCallApi stCached 300 = true :=
    canCallApi_eq_true_of stCached 0 300 rfl (by norm_num)
  refine ⟨rfl, hcc, ?_, ?_⟩
  · rw [step_empty stCached 300 (Or.inl hcc)]
  · rw [step_empty stCached 300 (Or.inl hcc)]
    simp

/-- C3 amended: whenever a cached reading exists, a `get_current_reading`
call whose upstream fetch raises returns the cached reading with the
current refresh progress (availability over freshness for the error
path); the zero-readings success path, by contrast, returns `(none, 0)`
even when a cache exists (see the counterexample). -/
theorem c3_error_returns_cache (s : CacheState) (now : ℚ) (msg : String)
    (d : GlucoseData) (hcache : s.cached_data = some d) :
    (get_current_reading s now (FetchResult.err msg)).1 =
      Outcome.ok (some d) (refreshProgress s now) := by
  cases hcall : canCallApi s now
  · rw [step_cache_hit s now _ d hcache hcall]
  · rw [step_err_with_cache s now msg d hcache hcall]

/-- Witness for the amended C3: an upstream failure at time 400 with a
cached reading from time 0 still returns the cached reading. -/
theorem c3_error_returns_cache_witness :
    stCached.cached_data = some sampleReading ∧
    (get_current_reading stCached 400 (FetchResult.err "network down")).1 =
      Outcome.ok (some sampleReading) (refreshProgress stCached 400) :=
  ⟨rfl, c3_error_returns_cache stCached 400 "network down" sampleReading rfl⟩

/-- C6: when the fetch path is taken and both upstream calls return zero
readings without raising, `get_current_reading` returns `(none, 0)`,
records the attempt time in `last_api_call`, and raises no exception. -/
theorem c6_empty_fetch (s : CacheState) (now : ℚ)
    (hpath : canCallApi s now = true ∨ s.cached_data = none) :
    get_current_reading s now (FetchResult.ok [] none) =
      (Outcome.ok none 0, { s with last_api_call := some now }) :=
  step_empty s now hpath

/-- Witness for C6: both upstream calls empty on a fresh state. -/
theorem c6_empty_fetch_witness :
    canCallApi stFresh 5 = true ∧
    get_current_reading stFresh 5 (FetchResult.ok [] none) =
      (Outcome.ok none 0, { stFresh with last_api_call := some 5 }) :=
  ⟨rfl, c6_empty_fetch stFresh 5 (Or.inl rfl)⟩

/-- C10: a fetch attempt that raises leaves `last_api_call` and
`cached_data` untouched, so the throttle state is as if the failed call
never happened and the next call (at any later time) takes the fetch path
again; the zero-readings path, by contrast, records the attempt time. -/
theorem c10_error_frame (s : CacheState) (now now' : ℚ) (msg : String)
    (hpath : canCallApi s now = true ∨ s.cached_data = none)
    (hle : now ≤ now') :
    (get_current_reading s now (FetchResult.err msg)).2.last_api_call
        = s.last_api_call ∧
    (get_current_reading s now (FetchResult.err msg)).2.cached_data
        = s.cached_data ∧
    (canCallApi ((get_current_reading s now (FetchResult.err msg)).2) now'
        = true ∨
      ((get_current_reading s now (FetchResult.err msg)).2).cached_data
        = none) ∧
    (get_current_reading s now (FetchResult.ok [] none)).2.last_api_call
        = some now := by
  have hs' : (get_current_reading s now (FetchResult.err msg)).2 =
      { s with last_error := some msg, last_error_time := some now,
               api_errors := s.api_errors + 1 } := by
    rcases hpath with h | h
    · cases hsc : s.cached_data with
      | none => rw [step_err_no_cache s now msg hsc, hsc]
      | some d => rw [step_err_with_cache s now msg d hsc h, hsc]
    · rw [step_err_no_cache s now msg h]
  refine ⟨by rw [hs'], by rw [hs'], ?_, by rw [step_empty s now hpath]⟩
  rcases hpath with h | h
  · left
    have hcc : canCallApi
        { s with last_error := some msg, last_error_time := some now,
                 api_errors := s.api_errors + 1 } now'
          = canCallApi s now' := canCallApi_congr s _ now' rfl
    rw [hs', hcc]
    exact canCallApi_mono s now now' h hle
  · right
    rw [hs']
    exact h

/-- Witness for C10: an upstream failure at time 300 on a cache from
time 0 leaves the state able to fetch again at time 301. -/
theorem c10_error_frame_witness :
    canCallApi stCached 300 = true ∧ (300 : ℚ) ≤ 301 ∧
    ((get_current_reading stCached 300 (FetchResult.err "boom")).2.last_api_call
        = stCached.last_api_call ∧
     (get_current_reading stCached 300 (FetchResult.err "boom")).2.cached_data
        = stCached.cached_data ∧
     (canCallApi ((get_current_reading stCached 300 (FetchResult.err "boom")).2)
          301 = true ∨
       ((get_current_reading stCached 300 (FetchResult.err "boom")).2).cached_data
          = none) ∧
     (get_current_reading stCached 300 (FetchResult.ok [] none)).2.last_api_call
        = some 300) :=
  ⟨canCallApi_eq_true_of stCached 0 300 rfl (by norm_num), by norm_num,
   c10_error_frame stCached 300 301 "boom"
     (Or.inl (canCallApi_eq_true_of stCached 0 300 rfl (by norm_num)))
     (by norm_num)⟩

theorem buildGlucoseData_paired (c : RawReading) (prev : Option RawReading) :
    (buildGlucoseData c prev).delta.isSome
      = (buildGlucoseData c prev).previous_value.isSome := by
  cases prev <;> rfl

/-- Cache state with 3 successful fetches and 7 cache hits recorded. -/
def stStats : CacheState := ⟨some 0, some sampleReading, none, none, 3, 7, 0⟩

/-- C2 (counters and `get_statistics` modelled from the spec, their
implementation being absent from src): the rate-limited cached return
bumps only `cache_hits`, a successful fetch (either source call) bumps
`total_api_calls`, a raised fetch bumps `api_errors`, `get_statistics`
reports the three counters, and the hit rate is
`cacheHits / (totalApiCalls + cacheHits)` as a percentage — 70 after
3 fetches and 7 hits, 0 when the denominator is 0. -/
theorem c2_statistics (s s₀ : CacheState) (now₁ now₂ : ℚ) (d : GlucoseData)
    (msg : String) (r₁ : RawReading) (rest : List RawReading)
    (latest : Option RawReading) (fetch : FetchResult)
    (hcache : s.cached_data = some d) (hlim : canCallApi s now₁ = false)
    (hcan : canCallApi s now₂ = true)
    (h3 : s.total_api_calls = 3) (h7 : s.cache_hits = 7)
    (hz1 : s₀.total_api_calls = 0) (hz2 : s₀.cache_hits = 0) :
    (get_current_reading s now₁ fetch).2.cache_hits = s.cache_hits + 1 ∧
    (get_current_reading s now₁ fetch).2.total_api_calls
        = s.total_api_calls ∧
    (get_current_reading s now₁ fetch).2.api_errors = s.api_errors ∧
    (get_current_reading s now₂
        (FetchResult.ok (r₁ :: rest) latest)).2.total_api_calls
        = s.total_api_calls + 1 ∧
    (get_current_reading s now₂
        (FetchResult.ok [] (some r₁))).2.total_api_calls
        = s.total_api_calls + 1 ∧
    (get_current_reading s now₂ (FetchResult.err msg)).2.api_errors
        = s.api_errors + 1 ∧
    (get_statistics s).total_api_calls = s.total_api_calls ∧
    (get_statistics s).cache_hits = s.cache_hits ∧
    (get_statistics s).api_errors = s.api_errors ∧
    (get_statistics s).cache_hit_rate_percent = 70 ∧
    (get_statistics s₀).cache_hit_rate_percent = 0 := by
  refine ⟨?_, ?_, ?_, ?_, ?_, ?_, rfl, rfl, rfl, ?_, ?_⟩
  · rw [step_cache_hit s now₁ fetch d hcache hlim]
  · rw [step_cache_hit s now₁ fetch d hcache hlim]
  · rw [step_cache_hit s now₁ fetch d hcache hlim]
  · rw [step_success_recent s now₂ r₁ rest latest (Or.inl hcan)]
  · rw [step_success_latest s now₂ r₁ (Or.inl hcan)]
  · rw [step_err_with_cache s now₂ msg d hcache hcan]
  · unfold get_statistics
    rw [h3, h7]
    norm_num
  · unfold get_statistics
    rw [hz1, hz2]
    norm_num

/-- Witness for C2: 3 fetches and 7 hits recorded, a rate-limited call at
1 s and fetches at 300 s; the reported hit rate is 70. -/
theorem c2_statistics_witness :
    canCallApi stStats 1 = false ∧ canCallApi stStats 300 = true ∧
    ((get_current_reading stStats 1 (FetchResult.ok [] none)).2.cache_hits
        = 8 ∧
     (get_current_reading stStats 1 (FetchResult.ok [] none)).2.total_api_calls
        = 3 ∧
     (get_current_reading stStats 1 (FetchResult.ok [] none)).2.api_errors
        = 0 ∧
     (get_current_reading stStats 300
        (FetchResult.ok [raw149, raw160] none)).2.total_api_calls = 4 ∧
     (get_current_reading stStats 300
        (FetchResult.ok [] (some raw149))).2.total_api_calls = 4 ∧
     (get_current_reading stStats 300 (FetchResult.err "boom")).2.api_errors
        = 1 ∧
     (get_statistics stStats).total_api_calls = 3 ∧
     (get_statistics stStats).cache_hits = 7 ∧
     (get_statistics stStats).api_errors = 0 ∧
     (get_statistics stStats).cache_hit_rate_percent = 70 ∧
     (get_statistics stFresh).cache_hit_rate_percent = 0) :=
  ⟨canCallApi_eq_false_of stStats 0 1 rfl (by norm_num),
   canCallApi_eq_true_of stStats 0 300 rfl (by norm_num),
   c2_statistics stStats stFresh 1 300 sampleReading "boom" raw149 [raw160]
     none (FetchResult.ok [] none) rfl
     (canCallApi_eq_false_of stStats 0 1 rfl (by norm_num))
     (canCallApi_eq_true_of stStats 0 300 rfl (by norm_num))
     rfl rfl rfl rfl⟩

/-- C4: on a fetch that yields at least one reading, the newest reading's
value becomes the returned Reading's value; with a second (older) reading
`delta = newest − older` and `previousValue = older`, otherwise both are
absent; the fallback single-latest path likewise yields the latest value
with both fields absent. -/
theorem c4_delta_computation (s : CacheState) (now : ℚ) (r₁ : RawReading)
    (rest : List RawReading) (latest : Option RawReading)
    (hpath : canCallApi s now = true ∨ s.cached_data = none) :
    (get_current_reading s now (FetchResult.ok (r₁ :: rest) latest)).1 =
      Outcome.ok (some (buildGlucoseData r₁ rest.head?)) 0 ∧
    (buildGlucoseData r₁ rest.head?).value = r₁.value ∧
    (buildGlucoseData r₁ rest.head?).delta =
      rest.head?.map (fun p => r₁.value - p.value) ∧
    (buildGlucoseData r₁ rest.head?).previous_value =
      rest.head?.map (fun p => p.value) ∧
    (get_current_reading s now (FetchResult.ok [] (some r₁))).1 =
      Outcome.ok (some (buildGlucoseData r₁ none)) 0 ∧
    (buildGlucoseData r₁ none).value = r₁.value ∧
    (buildGlucoseData r₁ none).delta = none ∧
    (buildGlucoseData r₁ none).previous_value = none := by
  refine ⟨?_, rfl, rfl, rfl, ?_, rfl, rfl, rfl⟩
  · rw [step_success_recent s now r₁ rest latest hpath]
  · rw [step_success_latest s now r₁ hpath]

/-- Witness for C4: source readings `[149, 160]` (newest first) yield
`value = 149, delta = -11, previousValue = 160`; a single reading `120`
yields `value = 120` with both fields absent. -/
theorem c4_delta_computation_witness :
    canCallApi stFresh 0 = true ∧
    ((get_current_reading stFresh 0
        (FetchResult.ok [raw149, raw160] none)).1 =
      Outcome.ok (some (buildGlucoseData raw149 (some raw160))) 0 ∧
     (buildGlucoseData raw149 (some raw160)).value = 149 ∧
     (buildGlucoseData raw149 (some raw160)).delta = some (-11) ∧
     (buildGlucoseData raw149 (some raw160)).previous_value = some 160 ∧
     (get_current_reading stFresh 0 (FetchResult.ok [] (some raw120))).1 =
      Outcome.ok (some (buildGlucoseData raw120 none)) 0 ∧
     (buildGlucoseData raw120 none).value = 120 ∧
     (buildGlucoseData raw120 none).delta = none ∧
     (buildGlucoseData raw120 none).previous_value = none) := by
  have h1 := c4_delta_computation stFresh 0 raw149 [raw160] none (Or.inl rfl)
  have h2 := c4_delta_computation stFresh 0 raw120 [] none (Or.inl rfl)
  exact ⟨rfl, h1.1, by decide, by decide, by decide,
         h2.2.2.2.2.1, by decide, rfl, rfl⟩

/-- C5: in every Reading returned or cached by the step function (given
the incoming cache already satisfies it), `delta` and `previous_value`
are both present or both absent. -/
theorem c5_delta_previous_paired (s : CacheState) (now : ℚ)
    (fetch : FetchResult) (g g' : GlucoseData) (p : Int)
    (hs : ∀ g₀, s.cached_data = some g₀ →
        g₀.delta.isSome = g₀.previous_value.isSome)
    (hout : (get_current_reading s now fetch).1 = Outcome.ok (some g) p)
    (hcached : (get_current_reading s now fetch).2.cached_data = some g') :
    g.delta.isSome = g.previous_value.isSome ∧
    g'.delta.isSome = g'.previous_value.isSome := by
  cases hsc : s.cached_data with
  | some d =>
      have hd := hs d hsc
      cases hcall : canCallApi s now with
      | false =>
          rw [step_cache_hit s now fetch d hsc hcall] at hout hcached
          simp only [Outcome.ok.injEq, Option.some.injEq] at hout
          simp only [CacheState.cached_data] at hcached
          rw [hsc] at hcached
          simp only [Option.some.injEq] at hcached
          rw [← hout.1, ← hcached]
          exact ⟨hd, hd⟩
      | true =>
          cases fetch with
          | err msg =>
              rw [step_err_with_cache s now msg d hsc hcall] at hout hcached
              simp only [Outcome.ok.injEq, Option.some.injEq] at hout
              simp only [CacheState.cached_data] at hcached
              rw [hsc] at hcached
              simp only [Option.some.injEq] at hcached
              rw [← hout.1, ← hcached]
              exact ⟨hd, hd⟩
          | ok recent latest =>
              cases recent with
              | nil =>
                  cases latest with
                  | none =>
                      rw [step_empty s now (Or.inl hcall)] at hout
                      exact absurd hout (by simp)
                  | some l =>
                      rw [step_success_latest s now l (Or.inl hcall)]
                        at hout hcached
                      simp only [Outcome.ok.injEq, Option.some.injEq]
                        at hout hcached
                      rw [← hout.1, ← hcached]
                      exact ⟨buildGlucoseData_paired l none,
                             buildGlucoseData_paired l none⟩
              | cons r rest =>
                  rw [step_success_recent s now r rest latest (Or.inl hcall)]
                    at hout hcached
                  simp only [Outcome.ok.injEq, Option.some.injEq]
                    at hout hcached
                  rw [← hout.1, ← hcached]
                  exact ⟨buildGlucoseData_paired r rest.head?,
                         buildGlucoseData_paired r rest.head?⟩
  | none =>
      cases fetch with
      | err msg =>
          rw [step_err_no_cache s now msg hsc] at hout
          exact absurd hout (by simp)
      | ok recent latest =>
          cases recent with
          | nil =>
              cases latest with
              | none =>
                  rw [step_empty s now (Or.inr hsc)] at hout
                  exact absurd hout (by simp)
              | some l =>
                  rw [step_success_latest s now l (Or.inr hsc)]
                    at hout hcached
                  simp only [Outcome.ok.injEq, Option.some.injEq]
                    at hout hcached
                  rw [← hout.1, ← hcached]
                  exact ⟨buildGlucoseData_paired l none,
                         buildGlucoseData_paired l none⟩
          | cons r rest =>
              rw [step_success_recent s now r rest latest (Or.inr hsc)]
                at hout hcached
              simp only [Outcome.ok.injEq, Option.some.injEq]
                at hout hcached
              rw [← hout.1, ← hcached]
              exact ⟨buildGlucoseData_paired r rest.head?,
                     buildGlucoseData_paired r rest.head?⟩

/-- Witness for C5: the two-reading fetch produces a reading with both
fields present, and the pairing invariant holds for it both as returned
and as cached. -/
theorem c5_delta_previous_paired_witness :
    (get_current_reading stFresh 0
        (FetchResult.ok [raw149, raw160] none)).1 =
      Outcome.ok (some (buildGlucoseData raw149 (some raw160))) 0 ∧
    (get_current_reading stFresh 0
        (FetchResult.ok [raw149, raw160] none)).2.cached_data =
      some (buildGlucoseData raw149 (some raw160)) ∧
    ((buildGlucoseData raw149 (some raw160)).delta.isSome
        = (buildGlucoseData raw149 (some raw160)).previous_value.isSome ∧
     (buildGlucoseData raw149 (some raw160)).delta.isSome
        = (buildGlucoseData raw149 (some raw160)).previous_value.isSome) := by
  have hout : (get_current_reading stFresh 0
      (FetchResult.ok [raw149, raw160] none)).1 =
      Outcome.ok (some (buildGlucoseData raw149 (some raw160))) 0 := by
    rw [step_success_recent stFresh 0 raw149 [raw160] none (Or.inl rfl)]
    rfl
  have hcached : (get_current_reading stFresh 0
      (FetchResult.ok [raw149, raw160] none)).2.cached_data =
      some (buildGlucoseData raw149 (some raw160)) := by
    rw [step_success_recent stFresh 0 raw149 [raw160] none (Or.inl rfl)]
    rfl
  exact ⟨hout, hcached,
    c5_delta_previous_paired stFresh 0 (FetchResult.ok [raw149, raw160] none)
      (buildGlucoseData raw149 (some raw160))
      (buildGlucoseData raw149 (some raw160)) 0
      (fun g₀ h => by simp [stFresh] at h) hout hcached⟩

/-! ## Formatter helper lemmas -/

/-- Well-formedness of the configured colors: each parses to an RGB
triple (spec §6: 8 configurable RGB colors). -/
def Settings.colorsWF (s : Settings) : Prop :=
  s.color_critical_low.length = 3 ∧ s.color_low.length = 3 ∧
  s.color_normal.length = 3 ∧ s.color_high.length = 3 ∧
  s.color_very_high.length = 3 ∧ s.color_delta.length = 3 ∧
  s.color_progress_bar.length = 3 ∧ s.color_progress_bg.length = 3

theorem rgb_to_hex_isSome (l : List Int) (h : l.length = 3) :
    (rgb_to_hex l).isSome = true := by
  match l, h with
  | [a, b, c], _ => rfl

theorem get_color_length (v : Int) (s : Settings) (h : s.colorsWF) :
    (get_color_for_glucose v s).length = 3 := by
  obtain ⟨h1, h2, h3, h4, h5, h6, h7, h8⟩ := h
  unfold get_color_for_glucose Settings.parse_color
  split_ifs <;> assumption

theorem format_for_awtrix_of_hex (g : GlucoseData) (s : Settings) (p : Int)
    (gh dh : String)
    (hg : rgb_to_hex (get_color_for_glucose g.value s) = some gh)
    (hd : rgb_to_hex (s.parse_color s.color_delta) = some dh) :
    format_for_awtrix g s p = some
      { text := ""
        color := get_color_for_glucose g.value s
        icon := none
        duration := some s.awtrix_duration
        noScroll := some true
        center := some false
        lifetime := some s.awtrix_lifetime
        background := get_background_color g.value s
        blinkText :=
          if g.value < s.glucose_critical_low then some 500 else none
        progress := some p
        progressC := some (s.parse_color s.color_progress_bar)
        progressBC := some (s.parse_color s.color_progress_bg)
        draw := some (DrawCmd.dt 0 0 (toString g.value) gh ::
          (get_arrow_drawing g.delta s gh
            ((estimate_text_width (toString g.value) : Int) + 1)).1 ++
          (if format_delta g.delta ≠ "" then
            [DrawCmd.dt
              (((estimate_text_width (toString g.value) : Int) + 1)
                + (get_arrow_drawing g.delta s gh
                    ((estimate_text_width (toString g.value) : Int) + 1)).2
                + 1)
              0 (format_delta g.delta) dh]
           else [])) } := by
  simp only [format_for_awtrix]
  rw [hg, hd]

/-! ## Formatter claim theorems -/

/-- Sample concrete settings used by formatter witnesses. -/
def sampleSettings : Settings :=
  { glucose_critical_low := 55, glucose_low := 70, glucose_high := 180,
    glucose_very_high := 240, delta_stable_threshold := 2,
    delta_rapid_threshold := 20,
    color_critical_low := [255, 0, 0], color_low := [255, 100, 100],
    color_normal := [0, 255, 0], color_high := [255, 255, 0],
    color_very_high := [255, 165, 0], color_delta := [200, 200, 200],
    color_progress_bar := [0, 255, 255], color_progress_bg := [50, 50, 50],
    awtrix_duration := 10, awtrix_lifetime := 120 }

/-- C7: the formatter is a total pure function: for every reading,
settings whose configured colors are RGB triples, and refresh-progress
input, `format_for_awtrix` produces a payload (neither of its two
partial color-to-hex conversions can fail, and no other operation is
partial). -/
theorem c7_formatter_total (g : GlucoseData) (s : Settings) (p : Int)
    (h : s.colorsWF) : (format_for_awtrix g s p).isSome = true := by
  have hg := rgb_to_hex_isSome _ (get_color_length g.value s h)
  have hd := rgb_to_hex_isSome (s.parse_color s.color_delta) h.2.2.2.2.2.1
  obtain ⟨gh, hg⟩ := Option.isSome_iff_exists.mp hg
  obtain ⟨dh, hd⟩ := Option.isSome_iff_exists.mp hd
  rw [format_for_awtrix_of_hex g s p gh dh hg hd]
  rfl

/-- Witness for C7 on concrete settings and reading. -/
theorem c7_formatter_total_witness :
    sampleSettings.colorsWF ∧
    (format_for_awtrix sampleReading sampleSettings 40).isSome = true :=
  ⟨⟨rfl, rfl, rfl, rfl, rfl, rfl, rfl, rfl⟩,
   c7_formatter_total sampleReading sampleSettings 40
     ⟨rfl, rfl, rfl, rfl, rfl, rfl, rfl, rfl⟩⟩

/-- C8: the payload's primary color follows the ordered first-match rule
over the glucose thresholds, the background overlay is present exactly
for `value < criticalLow` (dim red `[64, 0, 0]`) or `value > veryHigh`
(dim orange `[64, 32, 0]`), and the 500 ms blink is present exactly for
`value < criticalLow` — all comparisons as in the source, the critical
comparison being strict. -/
theorem c8_color_background_blink (g : GlucoseData) (s : Settings)
    (p : Int) (h : s.colorsWF) :
    (format_for_awtrix g s p).map (fun r => r.color) =
      some (if g.value < s.glucose_critical_low then s.color_critical_low
        else if g.value < s.glucose_low then s.color_low
        else if g.value ≤ s.glucose_high then s.color_normal
        else if g.value ≤ s.glucose_very_high then s.color_high
        else s.color_very_high) ∧
    (format_for_awtrix g s p).map (fun r => r.background) =
      some (if g.value < s.glucose_critical_low then some [64, 0, 0]
        else if g.value > s.glucose_very_high then some [64, 32, 0]
        else none) ∧
    (format_for_awtrix g s p).map (fun r => r.blinkText) =
      some (if g.value < s.glucose_critical_low then some 500 else none) := by
  have hg := rgb_to_hex_isSome _ (get_color_length g.value s h)
  have hd := rgb_to_hex_isSome (s.parse_color s.color_delta) h.2.2.2.2.2.1
  obtain ⟨gh, hg⟩ := Option.isSome_iff_exists.mp hg
  obtain ⟨dh, hd⟩ := Option.isSome_iff_exists.mp hd
  rw [format_for_awtrix_of_hex g s p gh dh hg hd]
  exact ⟨rfl, rfl, rfl⟩

/-- Reading with glucose value 54 (just below the default critical-low). -/
def gd54 : GlucoseData :=
  ⟨54, none, none, none, none, none, none, none, none⟩

/-- Reading with glucose value 55 (equal to the default critical-low). -/
def gd55 : GlucoseData :=
  ⟨55, none, none, none, none, none, none, none, none⟩

/-- Witness for C8: with `criticalLow = 55`, value 54 is critical (blink,
red background, critical color) while value 55 is not (no blink, no
background, low color) — the comparison is strict. -/
theorem c8_color_background_blink_witness :
    sampleSettings.colorsWF ∧
    (format_for_awtrix gd54 sampleSettings 0).map (fun r => r.blinkText)
        = some (some 500) ∧
    (format_for_awtrix gd54 sampleSettings 0).map (fun r => r.background)
        = some (some [64, 0, 0]) ∧
    (format_for_awtrix gd54 sampleSettings 0).map (fun r => r.color)
        = some [255, 0, 0] ∧
    (format_for_awtrix gd55 sampleSettings 0).map (fun r => r.blinkText)
        = some none ∧
    (format_for_awtrix gd55 sampleSettings 0).map (fun r => r.background)
        = some none ∧
    (format_for_awtrix gd55 sampleSettings 0).map (fun r => r.color)
        = some [255, 100, 100] := by
  have wf : sampleSettings.colorsWF := ⟨rfl, rfl, rfl, rfl, rfl, rfl, rfl, rfl⟩
  have h54 := c8_color_background_blink gd54 sampleSettings 0 wf
  have h55 := c8_color_background_blink gd55 sampleSettings 0 wf
  refine ⟨wf, ?_, ?_, ?_, ?_, ?_, ?_⟩
  · rw [h54.2.2]
    decide
  · rw [h54.2.1]
    decide
  · rw [h54.1]
    decide
  · rw [h55.2.2]
    decide
  · rw [h55.2.1]
    decide
  · rw [h55.1]
    decide

/-- Settings with negative delta thresholds, exhibiting the C9 edge. -/
def c9sNeg : Settings :=
  { sampleSettings with delta_stable_threshold := -1,
                        delta_rapid_threshold := -1 }

/-- C9 counterexample: with thresholds `stable = rapid = -1` (which
satisfy the claim's only hypothesis `stable ≤ rapid`) and `delta = 0`,
the code takes the rapid branch (`|0| > -1`) and draws the down arrow,
while the claim requires a vertical arrow with direction `sign 0 = 0` —
neither up (needs `0 < 0`) nor down (needs `0 < 0`): the claim fails. -/
theorem c9_counterexample :
    c9sNeg.delta_stable_threshold ≤ c9sNeg.delta_rapid_threshold ∧
    ¬ (|(0 : Int)| ≤ c9sNeg.delta_stable_threshold) ∧
    |(0 : Int)| > c9sNeg.delta_rapid_threshold ∧
    get_arrow_drawing (some 0) c9sNeg "#00ff00" 0 =
      (downArrow "#00ff00" 0, 5) ∧
    ¬ ((0 < (0 : Int) ∧ get_arrow_drawing (some 0) c9sNeg "#00ff00" 0 =
          (upArrow "#00ff00" 0, 5)) ∨
       ((0 : Int) < 0 ∧ get_arrow_drawing (some 0) c9sNeg "#00ff00" 0 =
          (downArrow "#00ff00" 0, 5))) := by
  refine ⟨by decide, by decide, by decide, rfl, ?_⟩
  rintro (⟨h, _⟩ | ⟨h, _⟩) <;> exact absurd h (by decide)

/-- C9 amended: adding that the stable threshold is nonnegative (as any
magnitude threshold is), arrow selection is as claimed: absent delta or
`|delta| ≤ stable` gives the horizontal arrow, `|delta| > rapid` the
vertical arrow in the direction of the sign of the delta, and anything
between the diagonal arrow in the direction of the sign of the delta. -/
theorem c9_arrow_selection (d : Int) (s : Settings) (hex : String) (x : Int)
    (hnn : 0 ≤ s.delta_stable_threshold)
    (hsr : s.delta_stable_threshold ≤ s.delta_rapid_threshold) :
    get_arrow_drawing none s hex x = (stableArrow hex x, 5) ∧
    (|d| ≤ s.delta_stable_threshold →
      get_arrow_drawing (some d) s hex x = (stableArrow hex x, 5)) ∧
    (|d| > s.delta_rapid_threshold →
      (0 < d ∧ get_arrow_drawing (some d) s hex x = (upArrow hex x, 5)) ∨
      (d < 0 ∧ get_arrow_drawing (some d) s hex x = (downArrow hex x, 5))) ∧
    (s.delta_stable_threshold < |d| → |d| ≤ s.delta_rapid_threshold →
      (0 < d ∧ get_arrow_drawing (some d) s hex x = (diagUpArrow hex x, 5)) ∨
      (d < 0 ∧ get_arrow_drawing (some d) s hex x =
        (diagDownArrow hex x, 5))) := by
  refine ⟨rfl, ?_, ?_, ?_⟩
  · intro hle
    simp only [get_arrow_drawing]
    rw [if_pos hle]
  · intro hgt
    have hst : ¬ (|d| ≤ s.delta_stable_threshold) :=
      not_le.mpr (lt_of_le_of_lt hsr hgt)
    rcases lt_trichotomy d 0 with hlt | h0 | hpos
    · right
      refine ⟨hlt, ?_⟩
      simp only [get_arrow_drawing]
      rw [if_neg hst, if_pos hgt, if_neg (by linarith : ¬ d > 0)]
    · exfalso
      rw [h0] at hgt
      simp only [abs_zero] at hgt
      linarith
    · left
      refine ⟨hpos, ?_⟩
      simp only [get_arrow_drawing]
      rw [if_neg hst, if_pos hgt, if_pos hpos]
  · intro hst hle
    have hst' : ¬ (|d| ≤ s.delta_stable_threshold) := not_le.mpr hst
    have hle' : ¬ (|d| > s.delta_rapid_threshold) := not_lt.mpr hle
    rcases lt_trichotomy d 0 with hlt | h0 | hpos
    · right
      refine ⟨hlt, ?_⟩
      simp only [get_arrow_drawing]
      rw [if_neg hst', if_neg hle', if_neg (by linarith : ¬ d > 0)]
    · exfalso
      rw [h0] at hst
      simp only [abs_zero] at hst
      linarith
    · left
      refine ⟨hpos, ?_⟩
      simp only [get_arrow_drawing]
      rw [if_neg hst', if_neg hle', if_pos hpos]

/-- Witness for the amended C9: with `stable = 2 ≤ rapid = 20`, delta 1
is stable, ±25 are vertical in the delta's direction, and −10 is the
down diagonal. -/
theorem c9_arrow_selection_witness :
    (0 : Int) ≤ sampleSettings.delta_stable_threshold ∧
    sampleSettings.delta_stable_threshold
      ≤ sampleSettings.delta_rapid_threshold ∧
    get_arrow_drawing none sampleSettings "#00ff00" 12 =
      (stableArrow "#00ff00" 12, 5) ∧
    get_arrow_drawing (some 1) sampleSettings "#00ff00" 12 =
      (stableArrow "#00ff00" 12, 5) ∧
    get_arrow_drawing (some 25) sampleSettings "#00ff00" 12 =
      (upArrow "#00ff00" 12, 5) ∧
    get_arrow_drawing (some (-25)) sampleSettings "#00ff00" 12 =
      (downArrow "#00ff00" 12, 5) ∧
    get_arrow_drawing (some (-10)) sampleSettings "#00ff00" 12 =
      (diagDownArrow "#00ff00" 12, 5) := by
  refine ⟨by decide, by decide,
    (c9_arrow_selection 1 sampleSettings "#00ff00" 12 (by decide)
       (by decide)).1,
    (c9_arrow_selection 1 sampleSettings "#00ff00" 12 (by decide)
       (by decide)).2.1 (by decide), ?_, ?_, ?_⟩
  · rcases (c9_arrow_selection 25 sampleSettings "#00ff00" 12 (by decide)
        (by decide)).2.2.1 (by decide) with ⟨_, h⟩ | ⟨h, _⟩
    · exact h
    · exact absurd h (by decide)
  · rcases (c9_arrow_selection (-25) sampleSettings "#00ff00" 12 (by decide)
        (by decide)).2.2.1 (by decide) with ⟨h, _⟩ | ⟨_, h⟩
    · exact absurd h (by decide)
    · exact h
  · rcases (c9_arrow_selection (-10) sampleSettings "#00ff00" 12 (by decide)
        (by decide)).2.2.2 (by decide) (by decide) with ⟨h, _⟩ | ⟨_, h⟩
    · exact absurd h (by decide)
    · exact h

end DexcomAwtrix
